import Mathlib

/-!
Verification of the my-datachain front end (a wallet / transfer / contract-call
UI built on ethers.js).  The definitions below are a shallow embedding of the
TypeScript sources: pure functions become Lean functions, React component state
becomes explicit state passing, and calls into external services (wallet
provider, JSON-RPC, GraphQL indexer) are parameterised by environment records
that carry the responses the external world would produce.  JavaScript strings
are modelled by Lean strings viewed as lists of characters.
-/

namespace DataChain

/-! ## JavaScript string primitives, modelled over character lists -/

/-- JS String.prototype.startsWith, modelled on the character list. -/
def jsStartsWith (s pre : String) : Bool :=
  pre.data.isPrefixOf s.data

/-- JS string length (code units; all strings in this app are ASCII/BMP). -/
def jsLength (s : String) : Nat :=
  s.data.length

/-- JS String.prototype.includes: substring containment. -/
def jsIncludes (s sub : String) : Bool :=
  decide (List.IsInfix sub.data s.data)

/-- JS String.prototype.toLowerCase (ASCII case folding). -/
def jsToLower (s : String) : String :=
  ⟨s.data.map Char.toLower⟩

/-- JS whitespace as it occurs in this app (ASCII). -/
def jsWhitespace (c : Char) : Bool :=
  c == ' ' || c == '\t' || c == '\n' || c == '\r'

/-- JS String.prototype.trim, modelled on the character list. -/
def jsTrim (s : String) : String :=
  ⟨((s.data.dropWhile jsWhitespace).reverse.dropWhile jsWhitespace).reverse⟩

/-! ## Transaction-progress step tracker
    (src/components/TransactionProgress.tsx lines 4-10) -/

/-- Step status: the four UI states of one tracker step. -/
inductive StepStatus
  | pending
  | loading
  | success
  | error
deriving DecidableEq, Repr

/-- One step of the transaction-progress tracker (interface TransactionStep). -/
structure TransactionStep where
  id : String
  label : String
  status : StepStatus
  txHash : Option String := none
  error : Option String := none
deriving DecidableEq, Repr

/-- A Partial-TransactionStep update record: an absent key is modelled
    by none, a present key by some value. -/
structure StepUpdates where
  id : Option String := none
  label : Option String := none
  status : Option StepStatus := none
  txHash : Option String := none
  error : Option String := none
deriving DecidableEq, Repr

/-- JS object spread: step overridden by the keys present in updates. -/
def mergeStep (step : TransactionStep) (updates : StepUpdates) : TransactionStep :=
  { id := updates.id.getD step.id
    label := updates.label.getD step.label
    status := updates.status.getD step.status
    txHash := match updates.txHash with
      | some h => some h
      | none => step.txHash
    error := match updates.error with
      | some e => some e
      | none => step.error }

/-- updateStep from useTransactionProgress
    (src/hooks/useTransactionProgress.ts lines 26-32, also
    TransactionProgress.tsx lines 206-212): map over the list, merging the
    updates into every step whose id equals stepId. -/
def updateStep (steps : List TransactionStep) (stepId : String)
    (updates : StepUpdates) : List TransactionStep :=
  steps.map fun step => if step.id = stepId then mergeStep step updates else step

/-! ## The initial step lists installed by each transaction action -/

/-- Native transfer: progressSteps of sendTransaction
    (src/components/NativeTransfer.tsx lines 137-153).  Three steps. -/
def nativeTransferProgressSteps : List TransactionStep :=
  [{ id := "validation", label := "验证交易参数", status := StepStatus.loading },
   { id := "submit", label := "提交交易到网络", status := StepStatus.pending },
   { id := "confirm", label := "等待区块确认", status := StepStatus.pending }]

/-- Contract call: progressSteps of callContract
    (src/components/ContractCall.tsx lines 185-206).  Four steps. -/
def contractCallProgressSteps : List TransactionStep :=
  [{ id := "validation", label := "验证合约参数", status := StepStatus.loading },
   { id := "submit", label := "提交合约调用", status := StepStatus.pending },
   { id := "confirm", label := "等待交易确认", status := StepStatus.pending },
   { id := "refresh", label := "刷新合约日志", status := StepStatus.pending }]

/-- Token transfer: progressSteps of transferToken
    (src/components/USDTTransfer.tsx lines 393-414).  Four steps. -/
def tokenTransferProgressSteps : List TransactionStep :=
  [{ id := "validation", label := "验证转账参数", status := StepStatus.loading },
   { id := "submit", label := "提交转账交易", status := StepStatus.pending },
   { id := "confirm", label := "等待交易确认", status := StepStatus.pending },
   { id := "refresh", label := "刷新链上记录", status := StepStatus.pending }]

/-! ## The useTransactionProgress hook as a state machine
    (src/hooks/useTransactionProgress.ts lines 12-51) -/

/-- The hook state: the isVisible flag and the installed steps. -/
structure ProgressState where
  isVisible : Bool
  steps : List TransactionStep
deriving DecidableEq, Repr

/-- Initial hook state: useState(false), useState([]). -/
def initialProgressState : ProgressState :=
  { isVisible := false, steps := [] }

/-- showProgress(initialSteps): install the steps and show the tracker. -/
def showProgress (_st : ProgressState) (initialSteps : List TransactionStep) :
    ProgressState :=
  { isVisible := true, steps := initialSteps }

/-- hideProgress(): hide the tracker and clear the steps. -/
def hideProgress (_st : ProgressState) : ProgressState :=
  { isVisible := false, steps := [] }

/-- updateStep(stepId, updates) as the hook operation: setSteps is a
    functional update, so it acts on the current state. -/
def hookUpdateStep (st : ProgressState) (stepId : String) (updates : StepUpdates) :
    ProgressState :=
  { isVisible := st.isVisible, steps := updateStep st.steps stepId updates }

/-- handleComplete(): fires the onComplete callback and schedules hideProgress
    after 3 seconds; its only effect on the hook state is that hideProgress. -/
def handleComplete (st : ProgressState) : ProgressState :=
  hideProgress st

/-- The states reachable from the initial hook state by the hook operations. -/
inductive ProgressReachable : ProgressState → Prop
  | init : ProgressReachable initialProgressState
  | doShow (st : ProgressState) (initialSteps : List TransactionStep) :
      ProgressReachable st → ProgressReachable (showProgress st initialSteps)
  | doHide (st : ProgressState) :
      ProgressReachable st → ProgressReachable (hideProgress st)
  | doUpdate (st : ProgressState) (stepId : String) (updates : StepUpdates) :
      ProgressReachable st → ProgressReachable (hookUpdateStep st stepId updates)
  | doComplete (st : ProgressState) :
      ProgressReachable st → ProgressReachable (handleComplete st)

/-! ## The shared catch handler of the three transaction actions
    (ContractCall.tsx lines 247-252, USDTTransfer.tsx lines 482-487,
    NativeTransfer.tsx lines 289-293)

    The handler reads the steps array captured by the running closure
    (the hook state as of the render that created the handler), looks for the
    first step whose status is loading, and, if found, issues a functional
    updateStep marking that id as error on the current hook state.  The
    captured array and the current state are distinct values in React, so the
    model takes both. -/

def catchMarkStep (captured current : List TransactionStep) (errMsg : String) :
    List TransactionStep :=
  match captured.find? (fun s => decide (s.status = StepStatus.loading)) with
  | some currentStep =>
      updateStep current currentStep.id
        { status := some StepStatus.error, error := some errMsg }
  | none => current

/-! ## Notifications (src/components/NotificationProvider.tsx) -/

/-- Notification severity levels of the notification provider. -/
inductive Severity
  | success
  | error
  | warning
  | info
deriving DecidableEq, Repr

/-- A notification: severity and message string. -/
abbrev Notice := Severity × String

/-! ## Native transfer (src/components/NativeTransfer.tsx) -/

/-- The source of a displayed transaction record. -/
inductive TxSource
  | blockchain
  | local
deriving DecidableEq, Repr

/-- A native transaction record (interface Transaction; the JS field from is
    rendered here as fromAddr). -/
structure Transaction where
  hash : String
  fromAddr : String
  toAddr : String
  value : String
  data : String
  timestamp : Nat
  source : Option TxSource := none
deriving DecidableEq, Repr

/-- The ethers TransactionRequest assembled by sendTransaction; the hex data
    payload is modelled by its source text. -/
structure TxRequest where
  toAddr : String
  value : String
  data : Option String := none
deriving DecidableEq, Repr

/-- Responses of the external world during one run of sendTransaction.
    An Except error carries some message when a JS Error was thrown and none
    for a non-Error throw. -/
structure NativeEnv where
  account : String
  now : Nat
  getCode : Except (Option String) String
  confirmContractData : Bool
  confirmInternalData : Bool
  sendTx : Except (Option String) String
deriving Repr

/-- The observable effect of one sendTransaction run: notifications shown,
    the transaction list as updated in state and local storage, and the
    submission attempts handed to the signer. -/
structure ActionEffect where
  notices : List Notice
  records : List Transaction
  attempts : List TxRequest
deriving DecidableEq, Repr

/-- The error-message classification of the sendTransaction catch handler
    (NativeTransfer.tsx lines 287-307). -/
def sendTransactionErrorMsg (e : Option String) : String :=
  match e with
  | some m =>
      if jsIncludes m "External transactions to internal accounts cannot include data" then
        "⚠️ MetaMask检测到目标地址为\"内部账户\"，不允许发送带数据的交易\n\n解决方案:\n1. 关闭\"启用数据留言\"开关（推荐）\n2. 或者发送到其他外部地址\n3. 或者使用其他钱包（如WalletConnect）\n\n注：内部账户通常指同一钱包内的其他账户"
      else if jsIncludes m "insufficient funds" then
        "余额不足，请检查账户余额"
      else if jsIncludes m "user rejected" then
        "用户取消了交易"
      else
        "交易失败: " ++ m
  | none => "交易失败: " ++ "未知错误"

/-- sendTransaction (NativeTransfer.tsx lines 122-313), up to the immediate
    effects of one run.  The deferred confirmation callback (setTimeout at
    line 253) runs after this function returns and is not part of this
    effect. -/
def sendTransaction (isAddress : String → Bool) (env : NativeEnv)
    (hasSigner : Bool) (toAddress amount message : String) (useData : Bool)
    (transactions : List Transaction) : ActionEffect :=
  if !hasSigner || toAddress == "" || amount == "" then
    { notices := [(Severity.error, "请填写完整信息")],
      records := transactions, attempts := [] }
  else if !(isAddress toAddress) then
    { notices := [(Severity.error, "请输入有效的以太坊地址")],
      records := transactions, attempts := [] }
  else
    match env.getCode with
    | Except.error e =>
        { notices := [(Severity.error, sendTransactionErrorMsg e)],
          records := transactions, attempts := [] }
    | Except.ok code =>
        let isContract := code != "0x"
        let withData := useData && jsTrim message != ""
        if withData && (if isContract then !env.confirmContractData else !env.confirmInternalData) then
          { notices := [], records := transactions, attempts := [] }
        else
          let txRequest : TxRequest :=
            { toAddr := toAddress, value := amount,
              data := if withData then some message else none }
          match env.sendTx with
          | Except.error e =>
              { notices := [(Severity.error, sendTransactionErrorMsg e)],
                records := transactions, attempts := [txRequest] }
          | Except.ok txHash =>
              let initialTransaction : Transaction :=
                { hash := txHash, fromAddr := env.account, toAddr := toAddress,
                  value := amount,
                  data := if withData then message else "",
                  timestamp := env.now, source := some TxSource.local }
              { notices := [(Severity.success,
                  "交易已提交，哈希: " ++ txHash ++ "\n记录已添加到交易列表")],
                records := initialTransaction :: transactions,
                attempts := [txRequest] }

/-! ## Token transfer (src/components/USDTTransfer.tsx) -/

/-- Status of a token transfer record. -/
inductive RecordStatus
  | pending
  | confirmed
  | failed
deriving DecidableEq, Repr

/-- A token transfer record (interface USDTRecord). -/
structure USDTRecord where
  hash : String
  fromAddr : String
  toAddr : String
  amount : String
  token : String
  timestamp : Nat
  status : RecordStatus
deriving DecidableEq, Repr

/-- The ERC-20 transfer(to, amount) call handed to the token contract; the
    parseUnits value is modelled by its source amount string. -/
structure TokenTxRequest where
  toAddr : String
  amountInUnits : String
deriving DecidableEq, Repr

/-- Responses of the external world during one run of transferToken.
    tokenSupported models getTokenContract() returning non-null. -/
structure TokenEnv where
  account : String
  now : Nat
  tokenSupported : Bool
  sendTx : Except (Option String) String
  wait : Except (Option String) Unit
deriving Repr

/-- The observable effect of one transferToken run: notifications, the
    usdtRecords component state, the datachain_usdt_records local-storage
    list, and the transfer calls handed to the token contract. -/
structure TokenEffect where
  notices : List Notice
  records : List USDTRecord
  stored : List USDTRecord
  attempts : List TokenTxRequest
deriving DecidableEq, Repr

/-- Duplicate test used by the token save paths: same hash and same token. -/
def recordKeyMatches (r s : USDTRecord) : Bool :=
  r.hash == s.hash && r.token == s.token

/-- saveUSDTRecordsToLocal (USDTTransfer.tsx lines 233-249): merge the new
    records into the stored list, pushing only those whose hash-and-token
    pair is not already present. -/
def saveUSDTRecordsToLocal (records stored : List USDTRecord) : List USDTRecord :=
  records.foldl
    (fun allRecords record =>
      if allRecords.any (fun r => recordKeyMatches r record) then allRecords
      else allRecords ++ [record])
    stored

/-- The record accumulation of loadTokenRecordsFromChain
    (USDTTransfer.tsx lines 179-208): starting from an empty list, push each
    record built from an event log unless its hash-and-token pair is already
    present.  The records themselves are built from external event-log data,
    here taken as input; the final timestamp sort (line 215) permutes the
    result and is not modelled. -/
def collectChainRecords (logs : List USDTRecord) : List USDTRecord :=
  logs.foldl
    (fun allRecords record =>
      if allRecords.any (fun r => recordKeyMatches r record) then allRecords
      else allRecords ++ [record])
    []

/-- The error-message classification of the transferToken catch handler
    (USDTTransfer.tsx lines 497-511). -/
def transferTokenErrorMsg (selectedToken : String) (e : Option String) : String :=
  match e with
  | some m =>
      if jsIncludes m "insufficient funds" || jsIncludes m "transfer amount exceeds balance" then
        selectedToken ++ "余额不足，请检查您的" ++ selectedToken ++ "余额"
      else if jsIncludes m "user rejected" then
        "用户取消了交易"
      else
        selectedToken ++ "转账失败: " ++ m
  | none => selectedToken ++ "转账失败: " ++ "未知错误"

/-- The pending-to-failed map of the transferToken catch handler
    (USDTTransfer.tsx lines 490-494), applied to the usdtRecords list the
    running closure captured. -/
def markPendingFailed (account : String) (usdtRecords : List USDTRecord) :
    List USDTRecord :=
  usdtRecords.map fun record =>
    if record.status = RecordStatus.pending ∧ record.fromAddr = account then
      { record with status := RecordStatus.failed }
    else record

/-- transferToken (USDTTransfer.tsx lines 372-517), up to the immediate
    effects of one run.  The deferred chain refresh (setTimeout at line 467)
    is not part of this effect.  In the catch branches the handler maps over
    the usdtRecords value captured by the closure, which does not include the
    pending record installed via setUsdtRecords during the same run. -/
def transferToken (isAddress : String → Bool) (env : TokenEnv)
    (hasSigner : Bool) (toAddress tokenAmount selectedToken networkName : String)
    (usdtRecords stored : List USDTRecord) : TokenEffect :=
  if !hasSigner || toAddress == "" || tokenAmount == "" then
    { notices := [(Severity.error, "请填写完整信息")],
      records := usdtRecords, stored := stored, attempts := [] }
  else if !(isAddress toAddress) then
    { notices := [(Severity.error, "请输入有效的以太坊地址")],
      records := usdtRecords, stored := stored, attempts := [] }
  else if !env.tokenSupported then
    { notices := [(Severity.error,
        "当前网络 " ++ networkName ++ " 暂不支持" ++ selectedToken ++ "转账")],
      records := usdtRecords, stored := stored, attempts := [] }
  else
    let txRequest : TokenTxRequest := { toAddr := toAddress, amountInUnits := tokenAmount }
    match env.sendTx with
    | Except.error e =>
        { notices := [(Severity.error, transferTokenErrorMsg selectedToken e)],
          records := markPendingFailed env.account usdtRecords,
          stored := stored, attempts := [txRequest] }
    | Except.ok txHash =>
        let pendingRecord : USDTRecord :=
          { hash := txHash, fromAddr := env.account, toAddr := toAddress,
            amount := tokenAmount, token := selectedToken,
            timestamp := env.now, status := RecordStatus.pending }
        let updatedRecords := pendingRecord :: usdtRecords
        let stored1 := saveUSDTRecordsToLocal [pendingRecord] stored
        match env.wait with
        | Except.error e =>
            { notices := [(Severity.error, transferTokenErrorMsg selectedToken e)],
              records := markPendingFailed env.account usdtRecords,
              stored := stored1, attempts := [txRequest] }
        | Except.ok _ =>
            { notices := [], records := updatedRecords,
              stored := stored1, attempts := [txRequest] }

/-! ## Per-action catch handlers and their notifications (claim C5)

    Each definition below is the list of notifications emitted by the catch
    handler of one UI action, as a function of the caught error
    (some message for a JS Error, none otherwise). -/

/-- connectWallet catch (src/App.tsx lines 314-316): console.error only. -/
def connectWalletCatchNotices (_e : Option String) : List Notice := []

/-- switchNetwork catch (src/App.tsx lines 328-330): console.error only. -/
def switchNetworkCatchNotices (_e : Option String) : List Notice := []

/-- switchAccount catch (src/App.tsx lines 346-349). -/
def switchAccountCatchNotices (_e : Option String) : List Notice :=
  [(Severity.error, "切换账户失败，请重试")]

/-- requestNewAccount catch (src/App.tsx lines 364-367). -/
def requestNewAccountCatchNotices (_e : Option String) : List Notice :=
  [(Severity.error, "请求新账户失败，请重试")]

/-- sendTransaction catch (NativeTransfer.tsx lines 284-309): showError of
    the classified message. -/
def sendTransactionCatchNotices (e : Option String) : List Notice :=
  [(Severity.error, sendTransactionErrorMsg e)]

/-- callContract catch (ContractCall.tsx lines 244-255): console.error and a
    progress-step update only, no notification. -/
def callContractCatchNotices (_e : Option String) : List Notice := []

/-- approveToken catch (USDTTransfer.tsx lines 358-366): console.error and a
    progress-step update only, no notification. -/
def approveTokenCatchNotices (_e : Option String) : List Notice := []

/-- transferToken catch (USDTTransfer.tsx lines 479-513): showError of the
    classified message. -/
def transferTokenCatchNotices (selectedToken : String) (e : Option String) :
    List Notice :=
  [(Severity.error, transferTokenErrorMsg selectedToken e)]

/-- queryContractInfo catch (ContractCall.tsx lines 272-278). -/
def queryContractInfoCatchNotices (e : Option String) : List Notice :=
  [(Severity.error, "查询失败: " ++ e.getD "未知错误")]

/-- searchTransactionByHash catch (NativeTransfer.tsx lines 353-356). -/
def searchTransactionByHashCatchNotices (e : Option String) : List Notice :=
  [(Severity.error, "查询交易失败: " ++ e.getD "未知错误")]

/-- searchTokenTransactionByHash catch (USDTTransfer.tsx lines 646-651). -/
def searchTokenTransactionByHashCatchNotices (e : Option String) : List Notice :=
  [(Severity.error, "❌ 查询代币交易失败\n\n" ++ e.getD "未知错误")]

/-- The UI actions with a catch handler, paired with the notifications the
    handler emits. -/
def uiActionCatchNotices : List (String × (Option String → List Notice)) :=
  [("connectWallet", connectWalletCatchNotices),
   ("switchNetwork", switchNetworkCatchNotices),
   ("switchAccount", switchAccountCatchNotices),
   ("requestNewAccount", requestNewAccountCatchNotices),
   ("sendTransaction", sendTransactionCatchNotices),
   ("callContract", callContractCatchNotices),
   ("approveToken", approveTokenCatchNotices),
   ("transferToken", transferTokenCatchNotices "USDT"),
   ("queryContractInfo", queryContractInfoCatchNotices),
   ("searchTransactionByHash", searchTransactionByHashCatchNotices),
   ("searchTokenTransactionByHash", searchTokenTransactionByHashCatchNotices)]

/-! ## Contract call (src/components/ContractCall.tsx) -/

/-- A contract-log entry returned by the Graph indexer (interface
    ContractLog). -/
structure ContractLog where
  id : String
  transactionHash : Option String := none
  blockNumber : Option String := none
  blockTimestamp : Option String := none
  name : Option String := none
  age : Option String := none
deriving DecidableEq, Repr

/-- The entity field names queryContractLogs tries against the subgraph, in
    order (ContractCall.tsx lines 58-65). -/
def possibleFieldNames : List String :=
  ["instructors", "instructorEntities", "instructor", "events", "logs",
   "instructorEvents"]

/-- The field-name loop of queryContractLogs and queryTransactionByHash
    (ContractCall.tsx lines 69-99 and 142-169): issue one query per field
    name, stopping at the first that returns a non-empty list; a thrown
    request or an empty (or missing) field continues with the next name.
    Returns the field names actually queried and the first non-empty
    result. -/
def tryFieldQueries (oracle : String → Except Unit (List ContractLog)) :
    List String → List String × Option (List ContractLog)
  | [] => ([], none)
  | fieldName :: rest =>
      match oracle fieldName with
      | Except.ok logs =>
          if logs.isEmpty then
            (fieldName :: (tryFieldQueries oracle rest).1,
             (tryFieldQueries oracle rest).2)
          else ([fieldName], some logs)
      | Except.error _ =>
          (fieldName :: (tryFieldQueries oracle rest).1,
           (tryFieldQueries oracle rest).2)

/-- A request to the Graph endpoint: one entity query per field name, or the
    basic _meta fallback query. -/
inductive GraphRequest
  | eventsQuery (fieldName : String)
  | metaQuery
deriving DecidableEq, Repr

/-- The requests one run of queryContractLogs issues (ContractCall.tsx lines
    54-122): the field-name loop, then, only when every field failed or was
    empty, the single basic _meta query. -/
def queryContractLogsRequests (oracle : String → Except Unit (List ContractLog)) :
    List GraphRequest :=
  match (tryFieldQueries oracle possibleFieldNames).2 with
  | some _ =>
      (tryFieldQueries oracle possibleFieldNames).1.map GraphRequest.eventsQuery
  | none =>
      (tryFieldQueries oracle possibleFieldNames).1.map GraphRequest.eventsQuery
        ++ [GraphRequest.metaQuery]

/-- A JSON-RPC request issued while tracking or looking up a transaction. -/
inductive RpcRequest
  | waitForTx (txHash : String) (confirms : Nat)
  | getTransaction (txHash : String)
  | getReceipt (txHash : String)
  | getBlock (blockNumber : Nat)
deriving DecidableEq, Repr

/-- The requests one run of the TransactionProgress waitForTransaction
    callback issues (TransactionProgress.tsx lines 23-71): nothing without a
    provider, otherwise exactly one waitForTransaction(txHash, 2) call,
    whatever its outcome. -/
def waitForTransactionRequests (hasProvider : Bool) (txHash : String) :
    List RpcRequest :=
  if hasProvider then [RpcRequest.waitForTx txHash 2] else []

/-- An invocation of the InfoContract: the state-changing setInfo or the
    read-only getInfo (per the ABI in CONTRACT_INFO.md, getInfo is a view). -/
inductive ContractInvocation
  | setInfo (name : String) (age : Option Int)
  | getInfo
deriving DecidableEq, Repr

/-- Whether an invocation changes contract state: setInfo does, the view
    getInfo does not. -/
def isStateChanging : ContractInvocation → Bool
  | ContractInvocation.setInfo _ _ => true
  | ContractInvocation.getInfo => false

/-- Digits-prefix helper for jsParseInt. -/
def parseDigits (cs : List Char) : Option Nat :=
  let ds := cs.takeWhile Char.isDigit
  if ds.isEmpty then none
  else some (ds.foldl (fun acc c => acc * 10 + (c.toNat - 48)) 0)

/-- JS parseInt with radix 10: trim, optional sign, then the longest prefix
    of decimal digits; none models NaN.  (The age field comes from a numeric
    input, so the hex-prefix case of parseInt does not arise.) -/
def jsParseInt (s : String) : Option Int :=
  match (jsTrim s).data with
  | '-' :: rest => (parseDigits rest).map (fun n => -(n : Int))
  | '+' :: rest => (parseDigits rest).map (fun n => (n : Int))
  | cs => (parseDigits cs).map (fun n => (n : Int))

/-- The InfoContract invocations one run of callContract makes
    (ContractCall.tsx lines 175-256): nothing when the guard rejects,
    otherwise the single setInfo(name, parseInt(age)) submission; the later
    tx.wait and the Graph log refresh are not contract-function calls. -/
def callContractInvocations (hasSigner : Bool) (name age : String) :
    List ContractInvocation :=
  if !hasSigner || name == "" || age == "" then []
  else [ContractInvocation.setInfo name (jsParseInt age)]

/-- The InfoContract invocations one run of queryContractInfo makes
    (ContractCall.tsx lines 258-279): the single read-only getInfo call,
    through a provider-connected contract object. -/
def queryContractInfoInvocations (hasProvider : Bool) (contractAddress : String) :
    List ContractInvocation :=
  if !hasProvider || contractAddress == "" then []
  else [ContractInvocation.getInfo]

/-! ## Record search (NativeTransfer.tsx, USDTTransfer.tsx, ContractCall.tsx) -/

/-- What a search submission does: an on-chain or indexer hash lookup, or a
    local keyword filter. -/
inductive SearchAction
  | hashLookup (txHash : String)
  | keywordFilter (term : String)
deriving DecidableEq, Repr

/-- performSearch of NativeTransfer (lines 363-369): a 0x-prefixed 66-long
    input goes to the hash lookup, anything else becomes the filter term. -/
def performSearchNative (searchInput : String) : SearchAction :=
  if jsStartsWith searchInput "0x" && jsLength searchInput == 66 then
    SearchAction.hashLookup searchInput
  else SearchAction.keywordFilter searchInput

/-- The search dispatch of USDTTransfer (lines 903-910). -/
def performSearchToken (searchInput : String) : SearchAction :=
  if jsStartsWith searchInput "0x" && jsLength searchInput == 66 then
    SearchAction.hashLookup searchInput
  else SearchAction.keywordFilter searchInput

/-- The search dispatch of ContractCall (lines 413-421). -/
def performSearchContract (searchInput : String) : SearchAction :=
  if jsStartsWith searchInput "0x" && jsLength searchInput == 66 then
    SearchAction.hashLookup searchInput
  else SearchAction.keywordFilter searchInput

/-- safeIncludes (NativeTransfer.tsx lines 378-381, and identically in
    USDTTransfer and ContractCall): false on a missing or empty string or
    term, otherwise case-insensitive substring containment. -/
def safeIncludes (str : Option String) (searchTerm : String) : Bool :=
  match str with
  | none => false
  | some s =>
      if s == "" || searchTerm == "" then false
      else jsIncludes (jsToLower s) (jsToLower searchTerm)

/-- filteredTransactions (NativeTransfer.tsx lines 384-391): no term shows
    all records, a term keeps the records one of whose fields contains it. -/
def filteredTransactions (searchTerm : String) (transactions : List Transaction) :
    List Transaction :=
  if searchTerm == "" then transactions
  else transactions.filter fun tx =>
    safeIncludes (some tx.hash) searchTerm ||
    safeIncludes (some tx.fromAddr) searchTerm ||
    safeIncludes (some tx.toAddr) searchTerm ||
    safeIncludes (some tx.data) searchTerm

/-- filteredUSDTRecords (USDTTransfer.tsx lines 667-676). -/
def filteredUSDTRecords (searchTerm : String) (records : List USDTRecord) :
    List USDTRecord :=
  records.filter fun record =>
    if searchTerm == "" then true
    else
      safeIncludes (some record.hash) searchTerm ||
      safeIncludes (some record.fromAddr) searchTerm ||
      safeIncludes (some record.toAddr) searchTerm ||
      safeIncludes (some record.amount) searchTerm ||
      safeIncludes (some record.token) searchTerm

/-- filteredContractLogs (ContractCall.tsx lines 292-300). -/
def filteredContractLogs (searchTerm : String) (logs : List ContractLog) :
    List ContractLog :=
  logs.filter fun log =>
    if searchTerm == "" then true
    else
      safeIncludes log.transactionHash searchTerm ||
      safeIncludes log.name searchTerm ||
      safeIncludes log.age searchTerm ||
      safeIncludes log.blockNumber searchTerm

/-- Outcomes of the external reads getTransactionDetails performs. -/
structure TxLookupEnv where
  txFound : Bool
  receiptFound : Bool
  blockNumber : Nat
deriving Repr

/-- The RPC requests one run of getTransactionDetails issues
    (NativeTransfer.tsx lines 60-120): getTransaction, then, if the
    transaction exists, getTransactionReceipt, then, if confirmed,
    getBlock. -/
def getTransactionDetailsRequests (env : TxLookupEnv) (txHash : String) :
    List RpcRequest :=
  if !env.txFound then [RpcRequest.getTransaction txHash]
  else if !env.receiptFound then
    [RpcRequest.getTransaction txHash, RpcRequest.getReceipt txHash]
  else
    [RpcRequest.getTransaction txHash, RpcRequest.getReceipt txHash,
     RpcRequest.getBlock env.blockNumber]

/-- The RPC requests one run of searchTransactionByHash issues
    (NativeTransfer.tsx lines 316-359): none when the hash is malformed, and
    none when a record with that hash (case-insensitively) is already loaded;
    only otherwise the getTransactionDetails lookup. -/
def searchTransactionByHashRequests (transactions : List Transaction)
    (env : TxLookupEnv) (txHash : String) : List RpcRequest :=
  if txHash == "" || !(jsStartsWith txHash "0x") || jsLength txHash != 66 then []
  else if transactions.any (fun tx => jsToLower tx.hash == jsToLower txHash) then []
  else getTransactionDetailsRequests env txHash

/-- The Graph requests one run of queryTransactionByHash issues
    (ContractCall.tsx lines 124-173): none when the hash is malformed,
    otherwise the field-name loop, which always queries at least one field. -/
def queryTransactionByHashRequests
    (oracle : String → Except Unit (List ContractLog)) (txHash : String) :
    List GraphRequest :=
  if txHash == "" || jsLength txHash != 66 then []
  else (tryFieldQueries oracle possibleFieldNames).1.map GraphRequest.eventsQuery

/-- Outcomes of the external reads searchTokenTransactionByHash performs:
    whether getTransaction and getTransactionReceipt find the transaction,
    and whether the transaction addresses a supported token contract with a
    parseable Transfer log (the compound condition guarding the getBlock
    call). -/
structure TokenLookupEnv where
  txFound : Bool
  receiptFound : Bool
  tokenMatched : Bool
  blockNumber : Nat
deriving Repr

/-- The RPC requests one run of searchTokenTransactionByHash issues
    (USDTTransfer.tsx lines 527-655): none when the hash is malformed, none
    without a provider, and none when a record with that hash
    (case-insensitively) is already loaded (that path shows an error and only
    sets the search term); otherwise getTransaction, then, if found,
    getTransactionReceipt, then, if confirmed and a supported token contract
    with a Transfer log matches, getBlock.  Log parsing itself is local and
    issues no request. -/
def searchTokenTransactionByHashRequests (hasProvider : Bool)
    (usdtRecords : List USDTRecord) (env : TokenLookupEnv) (txHash : String) :
    List RpcRequest :=
  if txHash == "" || !(jsStartsWith txHash "0x") || jsLength txHash != 66 then []
  else if !hasProvider then []
  else if usdtRecords.any (fun record => jsToLower record.hash == jsToLower txHash) then []
  else if !env.txFound then [RpcRequest.getTransaction txHash]
  else if !env.receiptFound then
    [RpcRequest.getTransaction txHash, RpcRequest.getReceipt txHash]
  else if env.tokenMatched then
    [RpcRequest.getTransaction txHash, RpcRequest.getReceipt txHash,
     RpcRequest.getBlock env.blockNumber]
  else [RpcRequest.getTransaction txHash, RpcRequest.getReceipt txHash]

/-! ## Auxiliary definitions used by the statements below -/

/-- A rejected native-transfer run: an error notification, the stored
    transaction list unchanged, and no submission handed to the signer. -/
def rejectsUnchanged (eff : ActionEffect) (transactions : List Transaction) : Prop :=
  eff.records = transactions ∧ eff.attempts = [] ∧
    eff.notices.map Prod.fst = [Severity.error]

/-- A rejected token-transfer run: an error notification, component state and
    local storage unchanged, and no transfer call handed to the contract. -/
def tokenRejectsUnchanged (eff : TokenEffect) (records stored : List USDTRecord) :
    Prop :=
  eff.records = records ∧ eff.stored = stored ∧ eff.attempts = [] ∧
    eff.notices.map Prod.fst = [Severity.error]

/-- No two entries share the same hash-and-token pair. -/
def NoDupHashToken (l : List USDTRecord) : Prop :=
  l.Pairwise fun r s => ¬(r.hash = s.hash ∧ r.token = s.token)

/-- The contract-call step list as it stands mid-run, after the validation
    step succeeded and the submit step started loading. -/
def inFlightContractSteps : List TransactionStep :=
  updateStep
    (updateStep contractCallProgressSteps "validation"
      { status := some StepStatus.success })
    "submit" { status := some StepStatus.loading }

/-- A well-formed 66-character transaction hash used as a concrete input. -/
def demoHash : String :=
  "0x" ++ String.mk (List.replicate 64 'a')

/-- A concrete token record used as a concrete input. -/
def demoRecord : USDTRecord :=
  { hash := "0xdup", fromAddr := "0xme", toAddr := "0xyou", amount := "1",
    token := "USDT", timestamp := 0, status := RecordStatus.pending }

/-! ## Theorems -/

/-- C1, as stated, fails on the code: the native-transfer action opens the
    tracker with three steps and none of them is the refresh step. -/
theorem C1_counterexample :
    nativeTransferProgressSteps.length = 3
  ∧ "refresh" ∉ nativeTransferProgressSteps.map TransactionStep.id := by
  exact ⟨rfl, by decide⟩

/-- C1 (amended): the contract-call and token-transfer actions open the
    tracker with the four steps validation, submit, confirm, refresh in that
    order (the first loading, the rest pending); the native-transfer action
    opens it with only the first three of those steps. -/
theorem C1_theorem :
    contractCallProgressSteps.map TransactionStep.id =
      ["validation", "submit", "confirm", "refresh"]
  ∧ tokenTransferProgressSteps.map TransactionStep.id =
      ["validation", "submit", "confirm", "refresh"]
  ∧ nativeTransferProgressSteps.map TransactionStep.id =
      ["validation", "submit", "confirm"]
  ∧ contractCallProgressSteps.map TransactionStep.status =
      [StepStatus.loading, StepStatus.pending, StepStatus.pending, StepStatus.pending]
  ∧ tokenTransferProgressSteps.map TransactionStep.status =
      [StepStatus.loading, StepStatus.pending, StepStatus.pending, StepStatus.pending]
  ∧ nativeTransferProgressSteps.map TransactionStep.status =
      [StepStatus.loading, StepStatus.pending, StepStatus.pending] :=
  ⟨rfl, rfl, rfl, rfl, rfl, rfl⟩

/-- C2: the catch handlers search the steps array captured by the running
    closure, which is the hook state of the render that created the handler
    and not the list updated during the run.  When the action itself opened
    the tracker, that captured array is the initial empty list, the find
    yields nothing, and no step at all is marked error, however the current
    steps stand: the marking the claim (and the spec) describe does not
    happen. -/
theorem C2_theorem :
    (∀ (current : List TransactionStep) (errMsg : String),
        catchMarkStep [] current errMsg = current)
  ∧ catchMarkStep [] inFlightContractSteps "user rejected" = inFlightContractSteps
  ∧ inFlightContractSteps.any (fun s => decide (s.status = StepStatus.loading)) = true
  ∧ inFlightContractSteps.all (fun s => decide (s.status ≠ StepStatus.error)) = true :=
  ⟨fun _ _ => rfl, rfl, by decide, by decide⟩

/-- C5, as stated, fails on the code: connectWallet is a UI action whose
    catch handler only logs and emits no notification. -/
theorem C5_counterexample :
    ("connectWallet", connectWalletCatchNotices) ∈ uiActionCatchNotices
  ∧ connectWalletCatchNotices (some "network error") = [] := by
  refine ⟨?_, rfl⟩
  unfold uiActionCatchNotices
  exact List.mem_cons_self _ _

/-- C5 (amended): errors caught in sendTransaction, transferToken,
    queryContractInfo, switchAccount, requestNewAccount and the two
    hash-search actions are surfaced as an error notification; errors caught
    in connectWallet and switchNetwork are only logged, and errors caught in
    callContract and approveToken are only recorded on the progress tracker,
    with no notification emitted. -/
theorem C5_theorem (selectedToken : String) (e : Option String) :
    (sendTransactionCatchNotices e).map Prod.fst = [Severity.error]
  ∧ (transferTokenCatchNotices selectedToken e).map Prod.fst = [Severity.error]
  ∧ (queryContractInfoCatchNotices e).map Prod.fst = [Severity.error]
  ∧ (switchAccountCatchNotices e).map Prod.fst = [Severity.error]
  ∧ (requestNewAccountCatchNotices e).map Prod.fst = [Severity.error]
  ∧ (searchTransactionByHashCatchNotices e).map Prod.fst = [Severity.error]
  ∧ (searchTokenTransactionByHashCatchNotices e).map Prod.fst = [Severity.error]
  ∧ connectWalletCatchNotices e = []
  ∧ switchNetworkCatchNotices e = []
  ∧ callContractCatchNotices e = []
  ∧ approveTokenCatchNotices e = [] :=
  ⟨rfl, rfl, rfl, rfl, rfl, rfl, rfl, rfl, rfl, rfl, rfl⟩

/-- C9: updateStep keeps the length and order of the list, leaves every step
    whose id differs from stepId unchanged, and replaces every step whose id
    equals stepId by that step merged with the updates. -/
theorem C9_theorem (steps : List TransactionStep) (stepId : String)
    (updates : StepUpdates) :
    (updateStep steps stepId updates).length = steps.length
  ∧ ∀ i (hi : i < steps.length) (hi2 : i < (updateStep steps stepId updates).length),
      ((steps.get ⟨i, hi⟩).id ≠ stepId →
        (updateStep steps stepId updates).get ⟨i, hi2⟩ = steps.get ⟨i, hi⟩)
    ∧ ((steps.get ⟨i, hi⟩).id = stepId →
        (updateStep steps stepId updates).get ⟨i, hi2⟩ =
          mergeStep (steps.get ⟨i, hi⟩) updates) := by
  refine ⟨by simp [updateStep], ?_⟩
  intro i hi hi2
  have hmap : (updateStep steps stepId updates).get ⟨i, hi2⟩ =
      if (steps.get ⟨i, hi⟩).id = stepId then mergeStep (steps.get ⟨i, hi⟩) updates
      else steps.get ⟨i, hi⟩ := by
    simp only [updateStep]
    exact List.getElem_map _
  rw [hmap]
  constructor
  · intro hne; rw [if_neg hne]
  · intro heq; rw [if_pos heq]

/-- C9 witness: the frame property applied to the concrete contract-call step
    list, instantiated at the submit step. -/
theorem C9_witness :
    (updateStep contractCallProgressSteps "submit"
        { status := some StepStatus.loading, txHash := some "0xabc" }).get
      ⟨1, by decide⟩ =
    mergeStep (contractCallProgressSteps.get ⟨1, by decide⟩)
      { status := some StepStatus.loading, txHash := some "0xabc" } :=
  ((C9_theorem contractCallProgressSteps "submit"
      { status := some StepStatus.loading, txHash := some "0xabc" }).2
    1 (by decide) (by decide)).2 (by decide)

/-- C10: in every reachable hook state, an invisible tracker has an empty
    step list. -/
theorem C10_theorem (st : ProgressState) (h : ProgressReachable st) :
    st.isVisible = false → st.steps = [] := by
  induction h with
  | init => intro _; rfl
  | doShow st initialSteps _ _ =>
      intro hv
      simp [showProgress] at hv
  | doHide st _ _ => intro _; rfl
  | doUpdate st stepId updates _ ih =>
      intro hv
      have h0 : st.steps = [] := ih hv
      simp [hookUpdateStep, updateStep, h0]
  | doComplete st _ _ => intro _; rfl

/-- C10 witness: the invariant applied to a concrete reachable state, reached
    by showing the tracker and hiding it again. -/
theorem C10_witness :
    (hideProgress (showProgress initialProgressState contractCallProgressSteps)).steps
      = [] :=
  C10_theorem _
    (ProgressReachable.doHide _
      (ProgressReachable.doShow _ _ ProgressReachable.init)) rfl

/-- C3: when the destination address fails the validity check, both transfer
    actions reject with an error notification, submit nothing, and leave the
    stored records unchanged. -/
theorem C3_theorem (isAddress : String → Bool) (env : NativeEnv) (tenv : TokenEnv)
    (hasSigner : Bool)
    (toAddress amount message tokenAmount selectedToken networkName : String)
    (useData : Bool) (transactions : List Transaction)
    (usdtRecords stored : List USDTRecord)
    (hbad : isAddress toAddress = false) :
    rejectsUnchanged
      (sendTransaction isAddress env hasSigner toAddress amount message useData
        transactions) transactions
  ∧ tokenRejectsUnchanged
      (transferToken isAddress tenv hasSigner toAddress tokenAmount selectedToken
        networkName usdtRecords stored) usdtRecords stored := by
  constructor
  · unfold sendTransaction
    cases hc : (!hasSigner || toAddress == "" || amount == "") with
    | true => simp [hc, rejectsUnchanged]
    | false => simp [hc, hbad, rejectsUnchanged]
  · unfold transferToken
    cases hc : (!hasSigner || toAddress == "" || tokenAmount == "") with
    | true => simp [hc, tokenRejectsUnchanged]
    | false => simp [hc, hbad, tokenRejectsUnchanged]

/-- C3 witness: the rejection property at a concrete invalid address. -/
theorem C3_witness :
    ((fun (_ : String) => false) "not-an-address" = false)
  ∧ rejectsUnchanged
      (sendTransaction (fun _ => false)
        { account := "0xme", now := 0, getCode := Except.ok "0x",
          confirmContractData := true, confirmInternalData := true,
          sendTx := Except.ok "0xh" }
        true "not-an-address" "1" "" false []) []
  ∧ tokenRejectsUnchanged
      (transferToken (fun _ => false)
        { account := "0xme", now := 0, tokenSupported := true,
          sendTx := Except.ok "0xh", wait := Except.ok () }
        true "not-an-address" "1" "USDT" "Sepolia" [] []) [] [] :=
  ⟨rfl,
   (C3_theorem (fun _ => false)
      { account := "0xme", now := 0, getCode := Except.ok "0x",
        confirmContractData := true, confirmInternalData := true,
        sendTx := Except.ok "0xh" }
      { account := "0xme", now := 0, tokenSupported := true,
        sendTx := Except.ok "0xh", wait := Except.ok () }
      true "not-an-address" "1" "" "1" "USDT" "Sepolia" false [] [] [] rfl).1,
   (C3_theorem (fun _ => false)
      { account := "0xme", now := 0, getCode := Except.ok "0x",
        confirmContractData := true, confirmInternalData := true,
        sendTx := Except.ok "0xh" }
      { account := "0xme", now := 0, tokenSupported := true,
        sendTx := Except.ok "0xh", wait := Except.ok () }
      true "not-an-address" "1" "" "1" "USDT" "Sepolia" false [] [] [] rfl).2⟩

/-- The dedup push common to the two token save paths preserves the
    hash-and-token uniqueness invariant of its accumulator. -/
theorem dedupFoldPreserves (records : List USDTRecord) :
    ∀ acc : List USDTRecord, NoDupHashToken acc →
      NoDupHashToken (records.foldl
        (fun allRecords record =>
          if allRecords.any (fun r => recordKeyMatches r record) then allRecords
          else allRecords ++ [record]) acc) := by
  induction records with
  | nil => intro acc h; exact h
  | cons record rest ih =>
      intro acc h
      simp only [List.foldl_cons]
      apply ih
      cases hany : acc.any (fun r => recordKeyMatches r record) with
      | true => simpa [hany] using h
      | false =>
          rw [if_neg (by simp)]
          refine List.pairwise_append.mpr ⟨h, by simp, ?_⟩
          intro a ha b hb
          have hb2 : b = record := by simpa using hb
          subst hb2
          intro hcontra
          have hfalse : recordKeyMatches a b = false := by
            cases hck : recordKeyMatches a b with
            | false => rfl
            | true =>
                have hmem : acc.any (fun r => recordKeyMatches r b) = true :=
                  List.any_eq_true.mpr ⟨a, ha, hck⟩
                rw [hany] at hmem
                exact Bool.noConfusion hmem
          rw [recordKeyMatches] at hfalse
          simp [hcontra.1, hcontra.2] at hfalse

/-- C4, as stated, fails on the code: the native-transfer submit path
    prepends the new record without any duplicate check, so a stored list
    whose hashes are distinct can come out with a duplicated hash. -/
theorem C4_counterexample :
    (([{ hash := "0xdup", fromAddr := "0xme", toAddr := "0xother", value := "1",
         data := "", timestamp := 0,
         source := some TxSource.local }] : List Transaction).map
       Transaction.hash).Nodup
  ∧ ¬ (((sendTransaction (fun _ => true)
        { account := "0xme", now := 0, getCode := Except.ok "0x",
          confirmContractData := true, confirmInternalData := true,
          sendTx := Except.ok "0xdup" }
        true "0xother" "1" "" false
        [{ hash := "0xdup", fromAddr := "0xme", toAddr := "0xother", value := "1",
           data := "", timestamp := 0,
           source := some TxSource.local }]).records.map
      Transaction.hash).Nodup) := by
  exact ⟨by decide, by decide⟩

/-- C4 (amended): the token-record save paths, saveUSDTRecordsToLocal and the
    record accumulation of loadTokenRecordsFromChain, check for an existing
    entry with the same hash-and-token pair before appending and so preserve
    the no-duplicate invariant; the native-transfer submit path prepends its
    record unconditionally, with no such check. -/
theorem C4_theorem (records stored logs : List USDTRecord)
    (h : NoDupHashToken stored) :
    NoDupHashToken (saveUSDTRecordsToLocal records stored)
  ∧ NoDupHashToken (collectChainRecords logs) :=
  ⟨dedupFoldPreserves records stored h, dedupFoldPreserves logs [] List.Pairwise.nil⟩

/-- C4 witness: the preservation property applied to concrete record lists
    containing a duplicate candidate. -/
theorem C4_witness :
    NoDupHashToken ([] : List USDTRecord)
  ∧ (NoDupHashToken (saveUSDTRecordsToLocal [demoRecord, demoRecord] [])
   ∧ NoDupHashToken (collectChainRecords [demoRecord, demoRecord])) :=
  ⟨List.Pairwise.nil,
   C4_theorem [demoRecord, demoRecord] [] [demoRecord, demoRecord]
     List.Pairwise.nil⟩

/-- The field names the query loop actually tries form a sublist of the
    configured field-name list. -/
theorem tryFieldQueries_fst_sublist
    (oracle : String → Except Unit (List ContractLog)) :
    ∀ l : List String, List.Sublist (tryFieldQueries oracle l).1 l := by
  intro l
  induction l with
  | nil => simp [tryFieldQueries]
  | cons fieldName rest ih =>
      simp only [tryFieldQueries]
      cases horacle : oracle fieldName with
      | ok logs =>
          cases hempty : logs.isEmpty with
          | true =>
              simp only [hempty, if_true]
              exact ih.cons₂ fieldName
          | false =>
              dsimp only
              rw [hempty, if_neg (by simp)]
              exact (List.nil_sublist rest).cons₂ fieldName
      | error e =>
          exact ih.cons₂ fieldName

/-- The query loop always tries at least the first field name. -/
theorem tryFieldQueries_fst_ne_nil
    (oracle : String → Except Unit (List ContractLog)) (fieldName : String)
    (rest : List String) :
    (tryFieldQueries oracle (fieldName :: rest)).1 ≠ [] := by
  simp only [tryFieldQueries]
  cases oracle fieldName with
  | ok logs => cases hempty : logs.isEmpty <;> simp [hempty]
  | error e => simp

/-- getTransactionDetails always issues at least one request. -/
theorem getTransactionDetailsRequests_ne_nil (env : TxLookupEnv) (txHash : String) :
    getTransactionDetailsRequests env txHash ≠ [] := by
  unfold getTransactionDetailsRequests
  split
  · simp
  · split <;> simp

/-- C6: within one action no request is ever issued twice, so in particular
    a failed request is never re-attempted: the queryContractLogs trace is
    duplicate-free for every oracle (each field name is queried at most once
    and the meta fallback is a distinct request issued at most once), and the
    progress-tracker confirmation wait issues at most one request. -/
theorem C6_theorem (oracle : String → Except Unit (List ContractLog))
    (hasProvider : Bool) (txHash : String) :
    (queryContractLogsRequests oracle).Nodup
  ∧ (waitForTransactionRequests hasProvider txHash).Nodup := by
  constructor
  · have hsub := tryFieldQueries_fst_sublist oracle possibleFieldNames
    have hnames : possibleFieldNames.Nodup := by decide
    have hnodup : (tryFieldQueries oracle possibleFieldNames).1.Nodup :=
      hnames.sublist hsub
    have hinj : Function.Injective GraphRequest.eventsQuery := by
      intro a b hab
      injection hab
    have hmap := hnodup.map hinj
    unfold queryContractLogsRequests
    cases (tryFieldQueries oracle possibleFieldNames).2 with
    | some logs => exact hmap
    | none =>
        rw [List.nodup_append]
        refine ⟨hmap, by simp, ?_⟩
        intro x hx hx2
        have hx2m : x = GraphRequest.metaQuery := by simpa using hx2
        subst hx2m
        simp [List.mem_map] at hx
  · unfold waitForTransactionRequests
    cases hasProvider <;> simp

/-- C7: when the guard passes, callContract hands the contract exactly one
    invocation, the state-changing setInfo(name, parseInt(age)); the only
    invocation of queryContractInfo is the view getInfo, which changes no
    state. -/
theorem C7_theorem (hasSigner hasProvider : Bool)
    (name age contractAddress : String)
    (h1 : hasSigner = true) (h2 : name ≠ "") (h3 : age ≠ "") :
    callContractInvocations hasSigner name age =
      [ContractInvocation.setInfo name (jsParseInt age)]
  ∧ ((callContractInvocations hasSigner name age).filter isStateChanging).length = 1
  ∧ (queryContractInfoInvocations hasProvider contractAddress).filter
      isStateChanging = [] := by
  subst h1
  have hn : (name == "") = false := beq_eq_false_iff_ne.mpr h2
  have ha : (age == "") = false := beq_eq_false_iff_ne.mpr h3
  have hcall : callContractInvocations true name age =
      [ContractInvocation.setInfo name (jsParseInt age)] := by
    simp [callContractInvocations, hn, ha]
  refine ⟨hcall, ?_, ?_⟩
  · rw [hcall]
    rfl
  · unfold queryContractInfoInvocations
    split
    · rfl
    · rfl

/-- C7 witness: the single-invocation property at concrete inputs, with the
    age string parsed to the integer 30. -/
theorem C7_witness :
    callContractInvocations true "Alice" "30" =
      [ContractInvocation.setInfo "Alice" (jsParseInt "30")]
  ∧ ((callContractInvocations true "Alice" "30").filter isStateChanging).length = 1
  ∧ (queryContractInfoInvocations true "0xc").filter isStateChanging = []
  ∧ jsParseInt "30" = some 30 :=
  ⟨(C7_theorem true true "Alice" "30" "0xc" rfl (by decide) (by decide)).1,
   (C7_theorem true true "Alice" "30" "0xc" rfl (by decide) (by decide)).2.1,
   (C7_theorem true true "Alice" "30" "0xc" rfl (by decide) (by decide)).2.2,
   by decide⟩

/-- C8, as stated, fails on the code: for a well-formed 66-character hash
    that is already among the loaded records, neither the native-transfer
    search nor the token search performs any on-chain lookup. -/
theorem C8_counterexample :
    jsStartsWith demoHash "0x" = true
  ∧ jsLength demoHash = 66
  ∧ searchTransactionByHashRequests
      [{ hash := demoHash, fromAddr := "0xme", toAddr := "0xyou", value := "1",
         data := "", timestamp := 0, source := some TxSource.local }]
      { txFound := true, receiptFound := true, blockNumber := 0 } demoHash
      = []
  ∧ searchTokenTransactionByHashRequests true
      [{ hash := demoHash, fromAddr := "0xme", toAddr := "0xyou", amount := "1",
         token := "USDT", timestamp := 0, status := RecordStatus.confirmed }]
      { txFound := true, receiptFound := true, tokenMatched := true,
        blockNumber := 0 } demoHash
      = [] := by
  exact ⟨by decide, by decide, by decide, by decide⟩

/-- C8 (amended): every search input dispatches to the hash-lookup routine
    exactly when it starts with 0x and has length 66, and otherwise only sets
    the local case-insensitive filter term, the empty term showing all
    records; the contract-log hash routine then always queries the indexer,
    while the native-transfer and token hash routines query the chain exactly
    when the hash is not already among the loaded records (the token routine
    also requiring a connected provider). -/
theorem C8_theorem (s : String) (transactions : List Transaction)
    (usdtRecords : List USDTRecord) (logs : List ContractLog)
    (env : TxLookupEnv) (oracle : String → Except Unit (List ContractLog))
    (hasProvider : Bool) (tenv : TokenLookupEnv) :
    (performSearchNative s = SearchAction.hashLookup s ↔
      (jsStartsWith s "0x" = true ∧ jsLength s = 66))
  ∧ (performSearchNative s = SearchAction.keywordFilter s ↔
      ¬(jsStartsWith s "0x" = true ∧ jsLength s = 66))
  ∧ performSearchToken s = performSearchNative s
  ∧ performSearchContract s = performSearchNative s
  ∧ filteredTransactions "" transactions = transactions
  ∧ filteredUSDTRecords "" usdtRecords = usdtRecords
  ∧ filteredContractLogs "" logs = logs
  ∧ (searchTransactionByHashRequests transactions env s ≠ [] ↔
      (jsStartsWith s "0x" = true ∧ jsLength s = 66 ∧
        transactions.any (fun tx => jsToLower tx.hash == jsToLower s) = false))
  ∧ (searchTokenTransactionByHashRequests hasProvider usdtRecords tenv s ≠ [] ↔
      (jsStartsWith s "0x" = true ∧ jsLength s = 66 ∧ hasProvider = true ∧
        usdtRecords.any (fun record => jsToLower record.hash == jsToLower s) = false))
  ∧ (queryTransactionByHashRequests oracle s ≠ [] ↔ (s ≠ "" ∧ jsLength s = 66))
  ∧ safeIncludes (some "0xAbCd") "bc" = true
  ∧ safeIncludes (some "0xAbCd") "zz" = false := by
  refine ⟨?_, ?_, rfl, rfl, ?_, ?_, ?_, ?_, ?_, ?_, by decide, by decide⟩
  · unfold performSearchNative
    cases hc : (jsStartsWith s "0x" && jsLength s == 66) with
    | true =>
        rw [Bool.and_eq_true] at hc
        simp
        exact ⟨hc.1, by simpa using hc.2⟩
    | false =>
        simp
        intro hp hl
        have hand : (jsStartsWith s "0x" && jsLength s == 66) = true := by
          rw [Bool.and_eq_true]
          exact ⟨hp, by simpa using hl⟩
        rw [hc] at hand
        exact Bool.noConfusion hand
  · unfold performSearchNative
    cases hc : (jsStartsWith s "0x" && jsLength s == 66) with
    | true =>
        rw [Bool.and_eq_true] at hc
        simp
        exact ⟨hc.1, by simpa using hc.2⟩
    | false =>
        simp
        intro hp hl
        have hand : (jsStartsWith s "0x" && jsLength s == 66) = true := by
          rw [Bool.and_eq_true]
          exact ⟨hp, by simpa using hl⟩
        rw [hc] at hand
        exact Bool.noConfusion hand
  · simp [filteredTransactions]
  · simp [filteredUSDTRecords]
  · simp [filteredContractLogs]
  · cases hsw : jsStartsWith s "0x" with
    | false =>
        constructor
        · intro hne
          exfalso
          apply hne
          unfold searchTransactionByHashRequests
          rw [if_pos (by simp [hsw])]
        · rintro ⟨hp, -, -⟩
          exact Bool.noConfusion hp
    | true =>
        cases hlen : (jsLength s == 66) with
        | false =>
            constructor
            · intro hne
              exfalso
              apply hne
              unfold searchTransactionByHashRequests
              rw [if_pos (by simp [hlen, bne])]
            · rintro ⟨-, hl, -⟩
              have hl2 : (jsLength s == 66) = true := by simpa using hl
              rw [hlen] at hl2
              exact Bool.noConfusion hl2
        | true =>
            have hl66 : jsLength s = 66 := by simpa using hlen
            have hs : (s == "") = false := by
              cases hse : (s == "") with
              | false => rfl
              | true =>
                  have hseq : s = "" := by simpa using hse
                  subst hseq
                  exact absurd hsw (by decide)
            unfold searchTransactionByHashRequests
            rw [if_neg (by simp [hs, hsw, hlen, bne])]
            cases hany : transactions.any (fun tx => jsToLower tx.hash == jsToLower s) with
            | true => simp [hany]
            | false =>
                simp [hany, hsw, hl66]
                exact getTransactionDetailsRequests_ne_nil env s
  · cases hsw : jsStartsWith s "0x" with
    | false =>
        constructor
        · intro hne
          exfalso
          apply hne
          unfold searchTokenTransactionByHashRequests
          rw [if_pos (by simp [hsw])]
        · rintro ⟨hp, -, -, -⟩
          exact Bool.noConfusion hp
    | true =>
        cases hlen : (jsLength s == 66) with
        | false =>
            constructor
            · intro hne
              exfalso
              apply hne
              unfold searchTokenTransactionByHashRequests
              rw [if_pos (by simp [hlen, bne])]
            · rintro ⟨-, hl, -, -⟩
              have hl2 : (jsLength s == 66) = true := by simpa using hl
              rw [hlen] at hl2
              exact Bool.noConfusion hl2
        | true =>
            have hl66 : jsLength s = 66 := by simpa using hlen
            have hs : (s == "") = false := by
              cases hse : (s == "") with
              | false => rfl
              | true =>
                  have hseq : s = "" := by simpa using hse
                  subst hseq
                  exact absurd hsw (by decide)
            unfold searchTokenTransactionByHashRequests
            rw [if_neg (by simp [hs, hsw, hlen, bne])]
            cases hprov : hasProvider with
            | false => simp [hl66]
            | true =>
                rw [if_neg (by simp)]
                cases hany : usdtRecords.any
                    (fun record => jsToLower record.hash == jsToLower s) with
                | true => simp [hany]
                | false =>
                    rw [if_neg (by simp)]
                    simp [hl66]
                    split
                    · simp
                    · split
                      · simp
                      · split <;> simp
  · constructor
    · intro hne
      unfold queryTransactionByHashRequests at hne
      by_cases h1 : (s == "" || jsLength s != 66) = true
      · rw [if_pos h1] at hne
        exact absurd rfl hne
      · have h1f : (s == "" || jsLength s != 66) = false := by
          revert h1
          cases (s == "" || jsLength s != 66) <;> simp
        have h1s : (s == "") = false ∧ (jsLength s != 66) = false := by
          simpa using h1f
        refine ⟨by simpa using h1s.1, by simpa using h1s.2⟩
    · rintro ⟨hs, hl⟩
      unfold queryTransactionByHashRequests
      rw [if_neg (by simp [hs, hl])]
      have hne := tryFieldQueries_fst_ne_nil oracle "instructors"
        ["instructorEntities", "instructor", "events", "logs", "instructorEvents"]
      simp only [possibleFieldNames]
      intro hmap
      rw [List.map_eq_nil_iff] at hmap
      exact hne hmap

/-- C2 witness: the stale-capture no-op evaluated at the concrete in-flight
    step list. -/
theorem C2_witness :
    catchMarkStep [] inFlightContractSteps "user rejected" = inFlightContractSteps :=
  C2_theorem.1 inFlightContractSteps "user rejected"

/-- C5 witness: the per-action notification facts evaluated at a concrete
    caught error. -/
theorem C5_witness :
    connectWalletCatchNotices (some "boom") = [] :=
  ( C5_theorem "USDT" (some "boom")).2.2.2.2.2.2.2.1

/-- C6 witness: the duplicate-free trace property evaluated at a concrete
    always-failing oracle. -/
theorem C6_witness :
    (queryContractLogsRequests (fun _ => Except.error ())).Nodup :=
  (C6_theorem (fun _ => Except.error ()) true demoHash).1

/-- C8 witness: the search characterisation evaluated at concrete inputs. -/
theorem C8_witness :
    filteredTransactions "" ([] : List Transaction) = [] :=
  ( C8_theorem "abc" [] [] [] { txFound := true, receiptFound := true, blockNumber := 0 }
    (fun _ => Except.error ()) true
    { txFound := true, receiptFound := true, tokenMatched := false,
      blockNumber := 0 }).2.2.2.2.1

end DataChain
